import Mathlib

/-!
Verification of the real-time biomechanical analysis pipeline
(Exercise Engine, Biometric Calculator, Pain Estimator, DTW Comparator).

The geometric and facial-analysis code computes with square roots,
arc-cosines and exponentials; those functions are embedded over `ℝ`.
The Exercise Engine's per-frame control flow (calibration, smoothing,
latching, debounce, cooldown, safety escalation) is embedded over `ℚ`
so that concrete runs evaluate by `decide`.

JavaScript numeric conventions used throughout:
`Math.round x` is `⌊x + 1/2⌋` (half rounds toward +∞);
`Math.min`/`Math.max` of three arguments are nested binary `min`/`max`.
-/

namespace Physio

/-- JavaScript `Math.round` on rationals: floor of `q + 1/2`. -/
def jsRound (q : ℚ) : ℤ := ⌊q + 1/2⌋

/-- JavaScript `Math.round` on reals: floor of `x + 1/2`. -/
noncomputable def jsRoundR (x : ℝ) : ℤ := ⌊x + 1/2⌋

/-! ## Geometry over ℝ (Biometrics module)

A landmark is `{x, y, z, visibility?}`; the optional visibility is read
in the source with `v.visibility || 0`, modelled by `Option.getD _ 0`. -/

structure LandmarkR where
  x : ℝ
  y : ℝ
  z : ℝ
  visibility : Option ℝ

/-- `v.visibility || 0` : a missing visibility reads as 0. -/
def LandmarkR.vis (l : LandmarkR) : ℝ := l.visibility.getD 0

/-- Vector subtraction `subtract(a, b)` (componentwise, landmark positions). -/
def subtract (a b : LandmarkR) : LandmarkR :=
  ⟨a.x - b.x, a.y - b.y, a.z - b.z, none⟩

/-- Dot product `dot(a, b)`. -/
def dot (a b : LandmarkR) : ℝ := a.x * b.x + a.y * b.y + a.z * b.z

/-- Vector magnitude `magnitude(v) = sqrt(x*x + y*y + z*z)`. -/
noncomputable def magnitude (v : LandmarkR) : ℝ :=
  Real.sqrt (v.x * v.x + v.y * v.y + v.z * v.z)

open Classical in
/-- `calculateAngle3D(A, B, C)`: angle at the vertex `B`, in degrees.
The cosine is clamped to `[-1, 1]` before `acos`; a zero magnitude
product yields `0`. -/
noncomputable def calculateAngle3D (pointA pointB pointC : LandmarkR) : ℝ :=
  let vectorBA := subtract pointA pointB
  let vectorBC := subtract pointC pointB
  let dotProduct := dot vectorBA vectorBC
  let magnitudeProduct := magnitude vectorBA * magnitude vectorBC
  if magnitudeProduct = 0 then 0
  else
    let cosAngle := max (-1) (min 1 (dotProduct / magnitudeProduct))
    Real.arccos cosAngle * 180 / Real.pi

/-- `calculateDistance3D(a, b) = magnitude(subtract(a, b))`. -/
noncomputable def calculateDistance3D (a b : LandmarkR) : ℝ :=
  magnitude (subtract a b)

/-! ## Symmetry score over ℚ (pure arithmetic in the source) -/

/-- `calculateSymmetryScore(left, right)
  = round((1 - |left - right| / max(left, right, 1)) * 100)`. -/
def calculateSymmetryScore (leftAngle rightAngle : ℚ) : ℤ :=
  let maxAngle := max (max leftAngle rightAngle) 1
  let difference := |leftAngle - rightAngle|
  let symmetry := 1 - difference / maxAngle
  jsRound (symmetry * 100)

/-! ## Joint angle getters

MediaPipe landmark indices are positionally fixed (types module):
NOSE 0, LEFT_EYE_INNER 1, LEFT_EYE 2, LEFT_EYE_OUTER 3, RIGHT_EYE_INNER 4,
RIGHT_EYE 5, RIGHT_EYE_OUTER 6, MOUTH_LEFT 9, MOUTH_RIGHT 10,
LEFT_SHOULDER 11, RIGHT_SHOULDER 12, LEFT_ELBOW 13, RIGHT_ELBOW 14,
LEFT_WRIST 15, RIGHT_WRIST 16, LEFT_HIP 23, RIGHT_HIP 24, LEFT_KNEE 25,
RIGHT_KNEE 26, LEFT_ANKLE 27, RIGHT_ANKLE 28.

`landmarks[i]` on an in-range index of a 33-landmark frame; an
out-of-range access (a crash in the source language) is modelled by a
default zero landmark, which no theorem below depends on. -/

inductive Side where
  | left
  | right
deriving DecidableEq

/-- `landmarks[i]`, defaulting out-of-range access to a zero landmark. -/
def lmGet (landmarks : List LandmarkR) (i : ℕ) : LandmarkR :=
  landmarks.getD i ⟨0, 0, 0, none⟩

/-- `getElbowAngle(landmarks, side)`: shoulder–elbow–wrist vertex angle.
No visibility check in the source. -/
noncomputable def getElbowAngle (landmarks : List LandmarkR) (side : Side) : ℝ :=
  let shoulder := lmGet landmarks (if side = .left then 11 else 12)
  let elbow := lmGet landmarks (if side = .left then 13 else 14)
  let wrist := lmGet landmarks (if side = .left then 15 else 16)
  calculateAngle3D shoulder elbow wrist

/-- `getShoulderAngle(landmarks, side)`: hip–shoulder–elbow vertex angle.
No visibility check in the source. -/
noncomputable def getShoulderAngle (landmarks : List LandmarkR) (side : Side) : ℝ :=
  let hip := lmGet landmarks (if side = .left then 23 else 24)
  let shoulder := lmGet landmarks (if side = .left then 11 else 12)
  let elbow := lmGet landmarks (if side = .left then 13 else 14)
  calculateAngle3D hip shoulder elbow

open Classical in
/-- `getKneeAngle(landmarks, side)`: hip–knee–ankle vertex angle, with the
visibility sentinel: if `min(hip.visibility || 0, knee.visibility || 0,
ankle.visibility || 0) < 0.5` the result is `-1`. -/
noncomputable def getKneeAngle (landmarks : List LandmarkR) (side : Side) : ℝ :=
  let hip := lmGet landmarks (if side = .left then 23 else 24)
  let knee := lmGet landmarks (if side = .left then 25 else 26)
  let ankle := lmGet landmarks (if side = .left then 27 else 28)
  let visibility := min (min hip.vis knee.vis) ankle.vis
  if visibility < 0.5 then -1
  else calculateAngle3D hip knee ankle

/-- `getHipAngle(landmarks, side)`: shoulder–hip–knee vertex angle.
No visibility check in the source. -/
noncomputable def getHipAngle (landmarks : List LandmarkR) (side : Side) : ℝ :=
  let shoulder := lmGet landmarks (if side = .left then 11 else 12)
  let hip := lmGet landmarks (if side = .left then 23 else 24)
  let knee := lmGet landmarks (if side = .left then 25 else 26)
  calculateAngle3D shoulder hip knee

/-! ## Clinical pain estimator (FACS-based) over ℝ -/

inductive Intensity where
  | Low
  | Moderate
  | High
  | Critical
deriving DecidableEq

/-- The `recommended_action` string union:
`'Continue' | 'Warning: Reduce Weight' | 'STOP_EXERCISE'`. -/
inductive RecAction where
  | Continue
  | WarningReduceWeight
  | StopExercise
deriving DecidableEq

structure PainAnalysisR where
  pain_detected : Bool
  confidence_score : ℝ
  primary_action_units : List String
  intensity_level : Intensity
  recommended_action : RecAction
  pain_score_raw : ℝ

/-- The zero / "no pain" result returned on missing landmarks or a
degenerate (zero) inter-eye distance. -/
def noPainResult : PainAnalysisR :=
  { pain_detected := false
    confidence_score := 0
    primary_action_units := []
    intensity_level := .Low
    recommended_action := .Continue
    pain_score_raw := 0 }

/-- The calibrated baseline: five neutral-face ratios.
(Source field names end in `Ratio`; shortened here.) -/
structure CalibrationBaselineR where
  eyeDist : ℝ
  eyeNose : ℝ
  eyeNarrow : ℝ
  mouthNose : ℝ
  mouthWidth : ℝ

open Classical in
/-- The scoring tail of `analyzePainClinical` (from `pain_score_raw =
min(10, score)` on): detection threshold, intensity bands and
recommended action. -/
noncomputable def painAssemble (score : ℝ) (triggeredAUs : List String) : PainAnalysisR :=
  let pain_score_raw := min 10 score
  let pain_detected : Bool := pain_score_raw > 7.5
  let intensity_level : Intensity :=
    if pain_score_raw > 9 then .Critical
    else if pain_score_raw > 7 then .High
    else if pain_score_raw > 4 then .Moderate
    else .Low
  let recommended_action : RecAction :=
    if intensity_level = .Critical ∨ intensity_level = .High then .StopExercise
    else if intensity_level = .Moderate then .WarningReduceWeight
    else .Continue
  { pain_detected := pain_detected
    confidence_score := 0.85
    primary_action_units := triggeredAUs
    intensity_level := intensity_level
    recommended_action := recommended_action
    pain_score_raw := pain_score_raw }

open Classical in
/-- The AU accumulation of `analyzePainClinical`, given the nine facial
landmarks (after the presence checks).  Each triggered action unit adds
`weight * min(1.5, (threshold gap) / (threshold * 0.08))` to the score. -/
noncomputable def analyzePainCore (nose leftEyeInner leftEye leftEyeOuter
    rightEyeInner rightEye rightEyeOuter mouthLeft mouthRight : LandmarkR)
    (baseline : Option CalibrationBaselineR) : PainAnalysisR :=
  let eyeDist := calculateDistance3D leftEye rightEye
  if eyeDist = 0 then noPainResult
  else
    -- AU4: brow lowering
    let eyeNoseDist := (calculateDistance3D leftEyeInner nose +
      calculateDistance3D rightEyeInner nose) / 2
    let normalizedEyeNose := eyeNoseDist / eyeDist
    let au4Threshold := match baseline with
      | some b => b.eyeNose * 0.90
      | none => 0.52
    let au4 := normalizedEyeNose < au4Threshold
    let score4 : ℝ := if au4 then
      1.2 * min 1.5 ((au4Threshold - normalizedEyeNose) / (au4Threshold * 0.08))
    else 0
    -- AU6/7: cheek raising and lid tightening
    let eyeNarrowing := (|leftEyeInner.x - leftEyeOuter.x| +
      |rightEyeInner.x - rightEyeOuter.x|) / 2
    let normalizedNarrowing := eyeNarrowing / eyeDist
    let au6Threshold := match baseline with
      | some b => b.eyeNarrow * 0.88
      | none => 0.20
    let au6 := normalizedNarrowing < au6Threshold
    let score6 : ℝ := if au6 then
      1.2 * min 1.5 ((au6Threshold - normalizedNarrowing) / (au6Threshold * 0.08))
    else 0
    -- AU9: nose wrinkling
    let mouthNoseDist := (calculateDistance3D mouthLeft nose +
      calculateDistance3D mouthRight nose) / 2
    let normalizedMouthNose := mouthNoseDist / eyeDist
    let au9Threshold := match baseline with
      | some b => b.mouthNose * 0.93
      | none => 0.78
    let au9 := normalizedMouthNose < au9Threshold
    let score9 : ℝ := if au9 then
      2.5 * min 1.5 ((au9Threshold - normalizedMouthNose) / (au9Threshold * 0.08))
    else 0
    -- AU10: upper lip raising
    let mouthWidth := calculateDistance3D mouthLeft mouthRight
    let normalizedMouthWidth := mouthWidth / eyeDist
    let au10Threshold := match baseline with
      | some b => b.mouthWidth * 1.15
      | none => 1.12
    let au10 := normalizedMouthWidth > au10Threshold
    let score10 : ℝ := if au10 then
      3 * min 1.5 ((normalizedMouthWidth - au10Threshold) / (au10Threshold * 0.08))
    else 0
    let triggeredAUs : List String :=
      (if au4 then ["AU4 (Focus/Brows)"] else []) ++
      (if au6 then ["AU6/7 (Squinting)"] else []) ++
      (if au9 then ["AU9 (Nose Wrinkling)"] else []) ++
      (if au10 then ["AU10 (Grimace)"] else [])
    painAssemble (score4 + score6 + score9 + score10) triggeredAUs

/-- `analyzePainClinical(landmarks, baseline?)`.  The presence checks
(`if (!nose || !mouthLeft || !mouthRight || !leftEye || !rightEye)`)
are modelled on list lookups; the unchecked eye-corner lookups use the
defaulting accessor. -/
noncomputable def analyzePainClinical (landmarks : List LandmarkR)
    (baseline : Option CalibrationBaselineR) : PainAnalysisR :=
  match landmarks[0]?, landmarks[9]?, landmarks[10]?, landmarks[2]?, landmarks[5]? with
  | some nose, some mouthLeft, some mouthRight, some leftEye, some rightEye =>
    analyzePainCore nose (lmGet landmarks 1) leftEye (lmGet landmarks 3)
      (lmGet landmarks 4) rightEye (lmGet landmarks 6) mouthLeft mouthRight baseline
  | _, _, _, _, _ => noPainResult

/-! ## DTW comparator

JavaScript `Infinity` is modelled by `⊤ : WithTop ℝ`; `⊤ + x = ⊤` and
`min`/ordering agree with IEEE infinity arithmetic on the values that
occur here (all matrix entries are nonnegative).  `Infinity / k` for a
positive finite `k` is `Infinity`, modelled by mapping the division over
the finite part. -/

/-- `poseDistance(frame1, frame2)`: mean per-landmark Euclidean distance;
`Infinity` on a length mismatch.  (For two empty frames the source's
`0/0` would be NaN; here real division gives `0` — no theorem below
evaluates that corner.) -/
noncomputable def poseDistance (frame1 frame2 : List LandmarkR) : WithTop ℝ :=
  if frame1.length ≠ frame2.length then ⊤
  else
    let totalDistance := ((frame1.zip frame2).map (fun p =>
      Real.sqrt ((p.1.x - p.2.x) * (p.1.x - p.2.x) +
        (p.1.y - p.2.y) * (p.1.y - p.2.y) +
        (p.1.z - p.2.z) * (p.1.z - p.2.z)))).sum
    (totalDistance / frame1.length : ℝ)

/-- The DTW cost matrix `dtw[i][j]`, seeded with `dtw[0][0] = 0` and
infinities elsewhere on the border, filled by
`cost(i,j) + min(dtw[i-1][j], dtw[i][j-1], dtw[i-1][j-1])`. -/
noncomputable def dtwVal (user gold : List (List LandmarkR)) : ℕ → ℕ → WithTop ℝ
  | 0, 0 => 0
  | 0, _ + 1 => ⊤
  | _ + 1, 0 => ⊤
  | i + 1, j + 1 =>
    poseDistance (user.getD i []) (gold.getD j []) +
      min (dtwVal user gold i (j + 1))
        (min (dtwVal user gold (i + 1) j) (dtwVal user gold i j))
termination_by i j => i + j

open Classical in
/-- The backtracking loop: from `(i, j)` step to the minimal-cost
neighbour (diagonal preferred, then left), collecting `(i-1, j-1)`
pairs front-first. -/
noncomputable def dtwPath (user gold : List (List LandmarkR)) : ℕ → ℕ → List (ℕ × ℕ)
  | 0, _ => []
  | _ + 1, 0 => []
  | i + 1, j + 1 =>
    let diag := dtwVal user gold i j
    let left := dtwVal user gold (i + 1) j
    let up := dtwVal user gold i (j + 1)
    (if diag ≤ left ∧ diag ≤ up then dtwPath user gold i j
     else if left ≤ up then dtwPath user gold (i + 1) j
     else dtwPath user gold i (j + 1)) ++ [(i, j)]
termination_by i j => i + j

structure DTWResultR where
  distance : WithTop ℝ
  normalizedDistance : WithTop ℝ
  alignmentPath : List (ℕ × ℕ)
  qualityScore : ℤ

/-- `max(0, min(100, round(100 * exp(-nd * 5))))`; an infinite
normalized distance gives 0 (JS: `exp(-Infinity) = 0`). -/
noncomputable def dtwQuality : WithTop ℝ → ℤ
  | ⊤ => 0
  | (x : ℝ) => max 0 (min 100 (jsRoundR (100 * Real.exp (-(x * 5)))))

/-- `computeDTW(userSequence, goldSequence)`. -/
noncomputable def computeDTW (userSequence goldSequence : List (List LandmarkR)) :
    DTWResultR :=
  let n := userSequence.length
  let m := goldSequence.length
  if n = 0 ∨ m = 0 then
    { distance := ⊤, normalizedDistance := ⊤, alignmentPath := [], qualityScore := 0 }
  else
    let distance := dtwVal userSequence goldSequence n m
    let normalizedDistance := distance.map (fun d => d / ((max n m : ℕ) : ℝ))
    { distance := distance
      normalizedDistance := normalizedDistance
      alignmentPath := dtwPath userSequence goldSequence n m
      qualityScore := dtwQuality normalizedDistance }

/-! ## Exercise Engine over ℚ

The engine's per-frame control flow is embedded over `ℚ` so concrete
runs evaluate by `decide`.  The Biometric Calculator's real-valued
per-frame outputs (primary angle, pain analysis, symmetry, joint stress,
form score) are supplied as an oracle `FrameInput`, and the engine's
claims quantify over every such stream; `Date.now()` readings are the
`now` field.  `computeBaseline` (an average of square-root distances,
whose value the control flow never inspects) is a parameter of the step
function. -/

inductive Phase where
  | IDLE
  | DOWN
  | UP
  | HOLD
  | COMPLETE
deriving DecidableEq

structure PainAnalysisQ where
  pain_detected : Bool
  confidence_score : ℚ
  primary_action_units : List String
  intensity_level : Intensity
  recommended_action : RecAction
  pain_score_raw : ℚ
deriving DecidableEq

structure SafetyLogQ where
  status : String
  pain_level : ℤ
  ui_message : String
  system_command : Option String
deriving DecidableEq

structure JointStressQ where
  jointId : ℕ
  stressLevel : String
  message : Option String
deriving DecidableEq

structure LandmarkQ where
  x : ℚ
  y : ℚ
  z : ℚ
  visibility : Option ℚ
deriving DecidableEq

/-- The externally visible `ExerciseState`. -/
structure ExerciseStateQ where
  exerciseId : String
  phase : Phase
  repCount : ℕ
  currentAngle : ℚ
  formScore : ℤ
  jointStress : List JointStressQ
  startTime : ℚ
  lastRepTime : Option ℚ
  angularVelocity : ℚ
  symmetryScore : ℤ
  isHolding : Bool
  painScore : ℤ
  painAnalysis : PainAnalysisQ
  safetyLog : SafetyLogQ
  isCalibrating : Bool
  calibrationProgress : ℚ
deriving DecidableEq

/-- External exercise configuration; the engine reads only the two
thresholds. -/
structure ExerciseDefinitionQ where
  downAngleThreshold : ℚ
  upAngleThreshold : ℚ
deriving DecidableEq

structure CalibrationBaselineQ where
  eyeDist : ℚ
  eyeNose : ℚ
  eyeNarrow : ℚ
  mouthNose : ℚ
  mouthWidth : ℚ
deriving DecidableEq

/-- Oracle input for one frame: the raw landmark frame plus the
Biometric Calculator outputs the engine consumes
(`getPrimaryAngle`, `calculateBiometrics(...).painAnalysis`,
`overallSymmetry`, `evaluateForm`, `calculateFormScore`) and the
`Date.now()` reading. -/
structure FrameInput where
  landmarks : List LandmarkQ
  primaryAngle : ℚ
  painAnalysis : PainAnalysisQ
  overallSymmetry : ℤ
  jointStress : List JointStressQ
  formScore : ℤ
  now : ℚ
deriving DecidableEq

/-- The full mutable engine: `st` is the public `ExerciseState`, the
rest are the private fields.  `stopNotifications` is a ghost counter of
`stopCallbacks.forEach(cb => cb())` firings (each firing invokes every
registered stop callback). -/
structure Engine where
  exerciseId : String
  exercise : Option ExerciseDefinitionQ
  st : ExerciseStateQ
  previousLandmarks : Option (List LandmarkQ)
  previousTimestamp : ℚ
  angleHistory : List ℚ
  cumulativeHoldDuration : ℚ
  lastHoldTick : ℚ
  acutePainStartTime : Option ℚ
  calibrationFrames : List (List LandmarkQ)
  calibrationStartTime : Option ℚ
  baseline : Option CalibrationBaselineQ
  smaAngleHistory : List ℚ
  painEMA : ℚ
  lastRepTimestamp : ℚ
  lastAttemptedPhase : Phase
  phaseFrameCount : ℕ
  lastValidAngleTimestamp : ℚ
  stopNotifications : ℕ
deriving DecidableEq

def REP_COOLDOWN_MS : ℚ := 850
def SMA_WINDOW : ℕ := 7
def EMA_ALPHA : ℚ := 3/10
def MIN_PHASE_FRAMES : ℕ := 4

def initialPainAnalysis : PainAnalysisQ :=
  { pain_detected := false
    confidence_score := 0
    primary_action_units := []
    intensity_level := .Low
    recommended_action := .Continue
    pain_score_raw := 0 }

def initialSafetyLog : SafetyLogQ :=
  { status := "Scanning"
    pain_level := 0
    ui_message := "Starting calibration..."
    system_command := none }

/-- The `ExerciseState` literal assigned in the constructor and in
`reset()` (`startTime: Date.now()`). -/
def initialState (exerciseId : String) (now : ℚ) : ExerciseStateQ :=
  { exerciseId := exerciseId
    phase := .IDLE
    repCount := 0
    currentAngle := 0
    formScore := 100
    jointStress := []
    startTime := now
    lastRepTime := none
    angularVelocity := 0
    symmetryScore := 100
    isHolding := false
    painScore := 0
    painAnalysis := initialPainAnalysis
    safetyLog := initialSafetyLog
    isCalibrating := true
    calibrationProgress := 0 }

/-- `new ExerciseEngine(exerciseId)`; the exercise definition looked up
from the external catalog is a parameter. -/
def Engine.init (exerciseId : String) (exercise : Option ExerciseDefinitionQ)
    (now : ℚ) : Engine :=
  { exerciseId := exerciseId
    exercise := exercise
    st := initialState exerciseId now
    previousLandmarks := none
    previousTimestamp := 0
    angleHistory := []
    cumulativeHoldDuration := 0
    lastHoldTick := 0
    acutePainStartTime := none
    calibrationFrames := []
    calibrationStartTime := none
    baseline := none
    smaAngleHistory := []
    painEMA := 0
    lastRepTimestamp := 0
    lastAttemptedPhase := .IDLE
    phaseFrameCount := 0
    lastValidAngleTimestamp := 0
    stopNotifications := 0 }

/-- `reset()`: restores the public state (with a fresh `Date.now()`
start time) and reassigns the listed private fields.
`lastAttemptedPhase`, `phaseFrameCount` and `lastValidAngleTimestamp`
are not reassigned by the source. -/
def Engine.reset (e : Engine) (now : ℚ) : Engine :=
  { e with
    st := initialState e.exerciseId now
    previousLandmarks := none
    previousTimestamp := 0
    angleHistory := []
    cumulativeHoldDuration := 0
    lastHoldTick := 0
    acutePainStartTime := none
    calibrationFrames := []
    calibrationStartTime := none
    baseline := none
    smaAngleHistory := []
    painEMA := 0
    lastRepTimestamp := 0 }

/-- `list.push(a)` followed by `if (list.length > cap) list.shift()`. -/
def pushCap (l : List ℚ) (a : ℚ) (cap : ℕ) : List ℚ :=
  let l' := l ++ [a]
  if cap < l'.length then l'.tail else l'

/-- The per-pair angular speeds `|h[i] - h[i-1]| / (deltaTimeMs / 1000)`,
skipping pairs touching the `-1` sentinel. -/
def velocityList (hist : List ℚ) (deltaTimeMs : ℚ) : List ℚ :=
  (hist.zip hist.tail).filterMap (fun p =>
    if p.2 ≠ -1 ∧ p.1 ≠ -1 then some (|p.2 - p.1| / (deltaTimeMs / 1000)) else none)

/-- `isPeakOfContraction()`: peak exertion near the bottom of a
squat/push-up or the top of a curl. -/
def isPeakOfContraction (exercise : Option ExerciseDefinitionQ)
    (exerciseId : String) (currentAngle : ℚ) : Bool :=
  match exercise with
  | none => false
  | some ex =>
    if exerciseId = "bicep-curl" then currentAngle < ex.upAngleThreshold + 15
    else if exerciseId = "squat" ∨ exerciseId = "pushup" then
      currentAngle < ex.downAngleThreshold + 15
    else false

/-- `updatePhase(newPhase)`: frame-persistence debounce; the phase is
committed only after `MIN_PHASE_FRAMES` consecutive attempts. -/
def updatePhase (e : Engine) (newPhase : Phase) : Engine :=
  let e' := if newPhase = e.lastAttemptedPhase
    then { e with phaseFrameCount := e.phaseFrameCount + 1 }
    else { e with lastAttemptedPhase := newPhase, phaseFrameCount := 1 }
  if MIN_PHASE_FRAMES ≤ e'.phaseFrameCount
  then { e' with st := { e'.st with phase := newPhase } }
  else e'

/-- `countRep()`: increments the rep count, records `Date.now()`,
commits `COMPLETE` and clears the phase-persistence history. -/
def countRep (e : Engine) (now : ℚ) : Engine :=
  { e with
    st := { e.st with
      repCount := e.st.repCount + 1
      lastRepTime := some now
      phase := .COMPLETE }
    lastAttemptedPhase := .COMPLETE
    phaseFrameCount := 0 }

/-- The plank branch of `detectPhaseTransition`. -/
def detectPlank (e : Engine) (currentAngle : ℚ) (now : ℚ) : Engine :=
  let isGoodForm := e.st.formScore > 70
  let isAligned := |currentAngle - 180| < 30
  if isGoodForm ∧ isAligned then
    let e' := if e.lastAttemptedPhase ≠ .HOLD
      then { e with lastAttemptedPhase := .HOLD, phaseFrameCount := 1 }
      else { e with phaseFrameCount := e.phaseFrameCount + 1 }
    if MIN_PHASE_FRAMES ≤ e'.phaseFrameCount then
      if ¬ e'.st.isHolding then
        { e' with
          st := { e'.st with isHolding := true, phase := .HOLD }
          lastHoldTick := now }
      else
        let delta := now - e'.lastHoldTick
        let e'' := if delta > 0 then
          let cum := e'.cumulativeHoldDuration + delta
          let newCount := (⌊cum / 1000⌋).toNat
          let e2 := { e' with cumulativeHoldDuration := cum }
          if e2.st.repCount < newCount then
            { e2 with st := { e2.st with repCount := newCount, lastRepTime := some now } }
          else e2
        else e'
        { e'' with lastHoldTick := now }
    else e'
  else
    let e' := if e.lastAttemptedPhase ≠ .IDLE
      then { e with lastAttemptedPhase := .IDLE, phaseFrameCount := 1 }
      else { e with phaseFrameCount := e.phaseFrameCount + 1 }
    if MIN_PHASE_FRAMES ≤ e'.phaseFrameCount ∧ e'.st.isHolding then
      { e' with st := { e'.st with isHolding := false, phase := .IDLE } }
    else e'

/-- `detectPhaseTransition(currentAngle, timestamp)`: the per-exercise
phase state machine.  Only the squat/lunge rep branch omits the
`lastRepTimestamp = timestamp` assignment. -/
def detectPhaseTransition (e : Engine) (currentAngle : ℚ) (timestamp : ℚ)
    (now : ℚ) : Engine :=
  match e.exercise with
  | none => e
  | some ex =>
    let down := ex.downAngleThreshold
    let up := ex.upAngleThreshold
    if e.exerciseId = "pushup" ∨ e.exerciseId = "tricep-dip" then
      if e.st.phase = .IDLE ∨ e.st.phase = .UP ∨ e.st.phase = .COMPLETE then
        if currentAngle < down + 10 then updatePhase e .DOWN else e
      else if e.st.phase = .DOWN then
        if currentAngle > up - 10 then
          updatePhase { countRep e now with lastRepTimestamp := timestamp } .UP
        else e
      else e
    else if e.exerciseId = "squat" ∨ e.exerciseId = "lunge" then
      if e.st.phase = .IDLE ∨ e.st.phase = .UP ∨ e.st.phase = .COMPLETE then
        if currentAngle < down + 10 then updatePhase e .DOWN else e
      else if e.st.phase = .DOWN then
        if currentAngle > up - 10 then updatePhase (countRep e now) .UP
        else e
      else e
    else if e.exerciseId = "bicep-curl" then
      if e.st.phase = .IDLE ∨ e.st.phase = .DOWN ∨ e.st.phase = .COMPLETE then
        if currentAngle < up + 10 then updatePhase e .UP else e
      else if e.st.phase = .UP then
        if currentAngle > down - 10 then
          updatePhase { countRep e now with lastRepTimestamp := timestamp } .DOWN
        else e
      else e
    else if e.exerciseId = "shoulder-press" ∨ e.exerciseId = "lateral-raise" then
      if e.st.phase = .IDLE ∨ e.st.phase = .DOWN ∨ e.st.phase = .COMPLETE then
        if currentAngle > up - 10 then updatePhase e .UP else e
      else if e.st.phase = .UP then
        if currentAngle < down + 10 then
          updatePhase { countRep e now with lastRepTimestamp := timestamp } .DOWN
        else e
      else e
    else if e.exerciseId = "jumping-jack" then
      if e.st.phase = .IDLE ∨ e.st.phase = .DOWN ∨ e.st.phase = .COMPLETE then
        if currentAngle > up - 10 then updatePhase e .UP else e
      else if e.st.phase = .UP then
        if currentAngle < down + 10 then
          updatePhase { countRep e now with lastRepTimestamp := timestamp } .DOWN
        else e
      else e
    else if e.exerciseId = "plank" then
      detectPlank e currentAngle now
    else
      if e.st.phase = .IDLE ∨ e.st.phase = .UP ∨ e.st.phase = .COMPLETE then
        if currentAngle < down + 10 then updatePhase e .DOWN else e
      else if e.st.phase = .DOWN then
        if currentAngle > up - 10 then
          updatePhase { countRep e now with lastRepTimestamp := timestamp } .UP
        else e
      else e

/-- `handleClinicalPainThresholds(analysis, timestamp)`: distinguishes
peak-of-contraction effort from acute pain; a raw score above 8.5 away
from the peak starts / continues the acute-pain timer, and once more
than 2500 ms have elapsed the frame emits `HALT_WORKOUT` and fires the
stop callbacks (on that frame and on every later qualifying frame). -/
def handleClinicalPainThresholds (e : Engine) (analysis : PainAnalysisQ)
    (timestamp : ℚ) : Engine :=
  let painScoreRaw := analysis.pain_score_raw
  let isPeak := isPeakOfContraction e.exercise e.exerciseId e.st.currentAngle
  let e0 := { e with st := { e.st with safetyLog :=
    { e.st.safetyLog with pain_level := jsRound (painScoreRaw * 10) } } }
  if painScoreRaw > 8.5 then
    if isPeak ∧ analysis.intensity_level ≠ .Critical then
      { e0 with
        st := { e0.st with safetyLog := { e0.st.safetyLog with
          status := "Effort Detected"
          ui_message := "High effort detected. Keep breathing." } }
        acutePainStartTime := none }
    else
      let e1 := { e0 with st := { e0.st with safetyLog := { e0.st.safetyLog with
        status := "PAIN ALERT"
        ui_message := "Sudden muscle tension! Ease up." } } }
      match e1.acutePainStartTime with
      | none => { e1 with acutePainStartTime := some timestamp }
      | some t0 =>
        if timestamp - t0 > 2500 then
          { e1 with
            st := { e1.st with
              safetyLog := { e1.st.safetyLog with
                ui_message := "Stop! Drop the weights"
                system_command := some "HALT_WORKOUT" }
              painAnalysis := { e1.st.painAnalysis with
                recommended_action := .StopExercise } }
            stopNotifications := e1.stopNotifications + 1 }
        else e1

  else
    { e0 with
      st := { e0.st with safetyLog := { e0.st.safetyLog with
        status := "Scanning"
        ui_message := "Motion within safe comfort zones." } }
      acutePainStartTime := none }

/-- `handleCalibration(landmarks, timestamp)`: accumulates frames for
about 3 seconds (an unset start time is falsy, like the JS `0`), then
computes the baseline and leaves the calibration phase. -/
def handleCalibration (computeBaselineM : List (List LandmarkQ) → CalibrationBaselineQ)
    (e : Engine) (landmarks : List LandmarkQ) (timestamp : ℚ) : Engine :=
  let start := match e.calibrationStartTime with
    | none => timestamp
    | some t => if t = 0 then timestamp else t
  let elapsed := timestamp - start
  let frames := e.calibrationFrames ++ [landmarks]
  let e1 := { e with
    st := { e.st with
      calibrationProgress := min 100 (elapsed / 3000 * 100)
      safetyLog := { e.st.safetyLog with
        status := "Calibrating"
        ui_message := "Please maintain a neutral expression..." } }
    calibrationStartTime := some start
    calibrationFrames := frames }
  if elapsed ≥ 3000 then
    { e1 with
      baseline := some (computeBaselineM frames)
      st := { e1.st with
        isCalibrating := false
        safetyLog := { e1.st.safetyLog with
          status := "Scanning"
          ui_message := "Calibration complete. Starting analysis." } } }
  else e1

/-- The latched primary angle: a `-1` reading within 300 ms of the last
valid reading (and with a nonzero current angle) reuses the current
angle. -/
def latchedAngle (e : Engine) (primaryAngle : ℚ) (timestamp : ℚ) : ℚ :=
  if primaryAngle = -1 then
    if timestamp - e.lastValidAngleTimestamp < 300 ∧ e.st.currentAngle ≠ 0
    then e.st.currentAngle
    else -1
  else primaryAngle

/-- The SMA history after this frame: valid latched angles are pushed
into the 7-sample window. -/
def smaAfter (e : Engine) (primaryAngle : ℚ) (timestamp : ℚ) : List ℚ :=
  let a := latchedAngle e primaryAngle timestamp
  if a ≠ -1 then pushCap e.smaAngleHistory a SMA_WINDOW else e.smaAngleHistory

/-- The smoothed angle fed to the phase detector: the mean of the SMA
window, or `-1` when the window is empty. -/
def smoothedAngle (e : Engine) (primaryAngle : ℚ) (timestamp : ℚ) : ℚ :=
  let sma := smaAfter e primaryAngle timestamp
  if 0 < sma.length then sma.sum / sma.length else -1

/-- The default `SafetyLog` built by `calculateBiometrics` from the
0–100 pain score, before the engine's temporal refinement. -/
def biomSafetyLog (painScore : ℚ) : SafetyLogQ :=
  { status := "Scanning"
    pain_level := jsRound painScore
    ui_message := if painScore > 70 then "PAIN DETECTED: Stop!"
      else if painScore > 40 then "Take a breath" else "Scanning..."
    system_command := none }

/-- The biometric / smoothing / scoring stage of `processFrame` (lines
between the calibration gate and the clinical pain handler): angle
latching, raw-angle history and angular velocity, SMA smoothing, form,
symmetry and EMA-smoothed pain updates, and the default safety log
rebuilt from this frame's biometrics (`system_command` reset to null).
`deltaTimeMs` falls back to 16 when the previous timestamp is unset
(the JS `0` is falsy). -/
def biometricsUpdate (e : Engine) (fr : FrameInput) (timestamp : ℚ) : Engine :=
  let deltaTimeMs := if e.previousTimestamp ≠ 0
    then timestamp - e.previousTimestamp else 16
  let primaryAngle := latchedAngle e fr.primaryAngle timestamp
  let lastValidTs := if fr.primaryAngle = -1
    then e.lastValidAngleTimestamp else timestamp
  let hist := pushCap e.angleHistory primaryAngle 10
  let angularVelocity := if 2 ≤ hist.length then
      let vs := velocityList hist deltaTimeMs
      if 0 < vs.length then vs.sum / vs.length else 0
    else e.st.angularVelocity
  let sma := smaAfter e fr.primaryAngle timestamp
  let smoothed := smoothedAngle e fr.primaryAngle timestamp
  let rawPainScore := fr.painAnalysis.pain_score_raw * 10
  let ema := EMA_ALPHA * rawPainScore + (1 - EMA_ALPHA) * e.painEMA
  { e with
    st := { e.st with
      currentAngle := smoothed
      angularVelocity := angularVelocity
      symmetryScore := fr.overallSymmetry
      jointStress := fr.jointStress
      formScore := fr.formScore
      painScore := jsRound ema
      painAnalysis := { fr.painAnalysis with pain_score_raw := ema / 10 }
      safetyLog := { biomSafetyLog rawPainScore with pain_level := jsRound ema } }
    angleHistory := hist
    smaAngleHistory := sma
    painEMA := ema
    lastValidAngleTimestamp := lastValidTs }

/-- `processFrame(landmarks, timestamp)`: the single per-frame entry
point.  Rejects malformed frames, runs calibration, then the smoothing /
scoring / safety / phase-detection pipeline.  The source assigns the
raw latched angle to `state.currentAngle` and overwrites it with the
smoothed angle in the same frame; only the final value is kept here. -/
def processFrame (computeBaselineM : List (List LandmarkQ) → CalibrationBaselineQ)
    (e : Engine) (fr : FrameInput) (timestamp : ℚ) : Engine :=
  if e.exercise = none ∨ fr.landmarks.length < 33 then e
  else
    if e.st.isCalibrating then
      handleCalibration computeBaselineM e fr.landmarks timestamp
    else
      let smoothed := smoothedAngle e fr.primaryAngle timestamp
      let e1 := biometricsUpdate e fr timestamp
      let e2 := handleClinicalPainThresholds e1 fr.painAnalysis timestamp
      let isGlitching := e2.st.angularVelocity > 1000
      let cooldownActive := timestamp - e2.lastRepTimestamp < REP_COOLDOWN_MS
      let e3 := if smoothed ≠ -1 ∧ smoothed ≠ 0 ∧ ¬ isGlitching ∧ ¬ cooldownActive
        then detectPhaseTransition e2 smoothed timestamp fr.now
        else e2
      { e3 with
        previousLandmarks := some fr.landmarks
        previousTimestamp := timestamp }

/-! ## Theorems -/

/-! ### C7 — symmetry score -/

lemma jsRound_nonneg {q : ℚ} (h : 0 ≤ q) : 0 ≤ jsRound q := by
  unfold jsRound
  exact Int.le_floor.mpr (by push_cast; linarith)

lemma jsRound_le_hundred {q : ℚ} (h : q ≤ 100) : jsRound q ≤ 100 := by
  unfold jsRound
  have h2 : ⌊q + 1/2⌋ < 101 := Int.floor_lt.mpr (by push_cast; linarith)
  omega

/-- C7 counterexample: with the `-1` "unreliable" sentinel as the left
angle (as produced by `getKneeAngle` and consumed by
`calculateBiometrics`), the symmetry score is `-1`, outside `[0, 100]` —
the claimed range does not hold for every pair of input angles. -/
theorem symmetryScore_negative_on_sentinel :
    calculateSymmetryScore (-1) 170 = -1 ∧ calculateSymmetryScore (-1) 170 < 0 :=
  of_decide_eq_true (by with_unfolding_all rfl)

/-- C7 (amended): the symmetry score lies in `[0, 100]` for nonnegative
input angles, `calculateSymmetryScore x x = 100` for every `x` (hence
for every `x > 0`), and `calculateSymmetryScore 0 0 = 100` — defined,
via the `max(..., 1)` floor. -/
theorem symmetryScore_range_and_identity :
    (∀ l r : ℚ, 0 ≤ l → 0 ≤ r →
      0 ≤ calculateSymmetryScore l r ∧ calculateSymmetryScore l r ≤ 100) ∧
    (∀ x : ℚ, calculateSymmetryScore x x = 100) ∧
    calculateSymmetryScore 0 0 = 100 := by
  refine ⟨fun l r hl hr => ?_, fun x => ?_, ?_⟩
  · have hM : (1 : ℚ) ≤ max (max l r) 1 := le_max_right _ _
    have hM0 : (0 : ℚ) < max (max l r) 1 := lt_of_lt_of_le one_pos hM
    have hd : |l - r| ≤ max (max l r) 1 := by
      have h1 : |l - r| ≤ max l r := by
        rw [abs_sub_le_iff]
        constructor
        · exact le_trans (sub_le_self l hr) (le_max_left l r)
        · exact le_trans (sub_le_self r hl) (le_max_right l r)
      exact le_trans h1 (le_max_left _ _)
    have hfrac1 : |l - r| / max (max l r) 1 ≤ 1 := (div_le_one hM0).mpr hd
    have hfrac0 : 0 ≤ |l - r| / max (max l r) 1 :=
      div_nonneg (abs_nonneg _) hM0.le
    simp only [calculateSymmetryScore]
    constructor
    · exact jsRound_nonneg (by nlinarith)
    · exact jsRound_le_hundred (by nlinarith)
  · simp only [calculateSymmetryScore]
    rw [sub_self, abs_zero, zero_div, sub_zero, one_mul]
    unfold jsRound
    norm_num
  · simp only [calculateSymmetryScore]
    unfold jsRound
    norm_num

/-- C7 witness: the range part at the concrete angles `(3, 5)`. -/
theorem symmetryScore_range_and_identity_witness :
    0 ≤ calculateSymmetryScore 3 5 ∧ calculateSymmetryScore 3 5 ≤ 100 :=
  symmetryScore_range_and_identity.1 3 5 (by norm_num) (by norm_num)

/-! ### C8 — vertex angle -/

lemma dot_comm' (a b : LandmarkR) : dot a b = dot b a := by
  unfold dot; ring

/-- C8: the vertex angle is in `[0°, 180°]`, is symmetric in its outer
points, and a zero magnitude product yields the defined value `0`. -/
theorem calculateAngle3D_range_symm_zero :
    ∀ pointA pointB pointC : LandmarkR,
      (0 ≤ calculateAngle3D pointA pointB pointC ∧
        calculateAngle3D pointA pointB pointC ≤ 180) ∧
      calculateAngle3D pointA pointB pointC = calculateAngle3D pointC pointB pointA ∧
      (magnitude (subtract pointA pointB) * magnitude (subtract pointC pointB) = 0 →
        calculateAngle3D pointA pointB pointC = 0) := by
  intro A B C
  have hsymm : calculateAngle3D A B C = calculateAngle3D C B A := by
    simp only [calculateAngle3D]
    rw [dot_comm' (subtract C B) (subtract A B),
      mul_comm (magnitude (subtract C B)) (magnitude (subtract A B))]
  refine ⟨?_, hsymm, fun hz => ?_⟩
  · simp only [calculateAngle3D]
    split
    · norm_num
    · constructor
      · have h1 : 0 ≤ Real.arccos (max (-1) (min 1
            (dot (subtract A B) (subtract C B) /
              (magnitude (subtract A B) * magnitude (subtract C B))))) :=
          Real.arccos_nonneg _
        positivity
      · rw [div_le_iff Real.pi_pos]
        calc Real.arccos (max (-1) (min 1
              (dot (subtract A B) (subtract C B) /
                (magnitude (subtract A B) * magnitude (subtract C B))))) * 180
            ≤ Real.pi * 180 :=
              mul_le_mul_of_nonneg_right (Real.arccos_le_pi _) (by norm_num)
          _ = 180 * Real.pi := mul_comm _ _
  · simp only [calculateAngle3D]
    rw [if_pos hz]

lemma magnitude_subtract_self (a : LandmarkR) : magnitude (subtract a a) = 0 := by
  unfold magnitude subtract
  simp

/-- C8 witness: the zero-magnitude clause at the degenerate triple where
all three points coincide at the origin. -/
theorem calculateAngle3D_range_symm_zero_witness :
    calculateAngle3D ⟨0, 0, 0, none⟩ ⟨0, 0, 0, none⟩ ⟨0, 0, 0, none⟩ = 0 :=
  (calculateAngle3D_range_symm_zero _ _ _).2.2 (by
    rw [magnitude_subtract_self, zero_mul])

/-! ### C6 / C10 — pain estimator thresholds -/

/-- The threshold contract of the pain estimator: raw score capped at
10; detection exactly above 7.5; intensity bands at 9 / 7 / 4; stop for
High/Critical, warning for Moderate, continue for Low. -/
def painSpec (r : PainAnalysisR) : Prop :=
  r.pain_score_raw ≤ 10 ∧
  (r.pain_detected = true ↔ r.pain_score_raw > 7.5) ∧
  (r.intensity_level = .Critical ↔ r.pain_score_raw > 9) ∧
  (r.intensity_level = .High ↔ (7 < r.pain_score_raw ∧ r.pain_score_raw ≤ 9)) ∧
  (r.intensity_level = .Moderate ↔ (4 < r.pain_score_raw ∧ r.pain_score_raw ≤ 7)) ∧
  (r.intensity_level = .Low ↔ r.pain_score_raw ≤ 4) ∧
  (r.recommended_action = .StopExercise ↔
    (r.intensity_level = .High ∨ r.intensity_level = .Critical)) ∧
  (r.recommended_action = .WarningReduceWeight ↔ r.intensity_level = .Moderate) ∧
  (r.recommended_action = .Continue ↔ r.intensity_level = .Low)

lemma noPain_painSpec : painSpec noPainResult := by
  unfold painSpec noPainResult
  norm_num
  simp

lemma painAssemble_painSpec (score : ℝ) (aus : List String) :
    painSpec (painAssemble score aus) := by
  unfold painSpec painAssemble
  dsimp only
  have hr : min (10 : ℝ) score ≤ 10 := min_le_left _ _
  revert hr
  generalize min (10 : ℝ) score = r
  intro hr
  split_ifs with h9 h7 h4 <;>
    first
      | (exfalso; simp_all; done)
      | (refine ⟨hr, by simp [decide_eq_true_eq], ?_, ?_, ?_, ?_,
            by simp, by simp, by simp⟩ <;>
          simp <;> first
            | linarith
            | (intro h; linarith)
            | (intro h _; linarith)
            | (exact ⟨by linarith, by linarith⟩))

lemma analyzePain_painSpec (landmarks : List LandmarkR)
    (baseline : Option CalibrationBaselineR) :
    painSpec (analyzePainClinical landmarks baseline) := by
  unfold analyzePainClinical
  split
  · dsimp only [analyzePainCore]
    split
    · exact noPain_painSpec
    · exact painAssemble_painSpec _ _
  · exact noPain_painSpec

/-- C6: for every input frame (and optional baseline), the pain
estimator's output is capped at 10, `pain_detected ↔ raw > 7.5`, the
intensity bands sit at 9 / 7 / 4, and the recommended action is stop for
High/Critical, the warning for Moderate, continue otherwise.  Stated for
all frames, which covers frames containing the required facial
landmarks. -/
theorem analyzePainClinical_thresholds_spec :
    ∀ (landmarks : List LandmarkR) (baseline : Option CalibrationBaselineR),
      painSpec (analyzePainClinical landmarks baseline) :=
  analyzePain_painSpec

/-- C10: a detected-pain verdict is always paired with High/Critical
intensity and the stop recommendation. -/
theorem painDetected_implies_stop :
    ∀ (landmarks : List LandmarkR) (baseline : Option CalibrationBaselineR),
      (analyzePainClinical landmarks baseline).pain_detected = true →
      ((analyzePainClinical landmarks baseline).intensity_level = .High ∨
        (analyzePainClinical landmarks baseline).intensity_level = .Critical) ∧
      (analyzePainClinical landmarks baseline).recommended_action = .StopExercise := by
  intro lm b hd
  obtain ⟨h10, hdet, hcrit, hhigh, _, _, hstop, _, _⟩ := analyzePain_painSpec lm b
  have hraw : (analyzePainClinical lm b).pain_score_raw > 7.5 := hdet.mp hd
  rcases le_or_lt (analyzePainClinical lm b).pain_score_raw 9 with h9 | h9
  · have hih : (analyzePainClinical lm b).intensity_level = .High :=
      hhigh.mpr ⟨by linarith, h9⟩
    exact ⟨Or.inl hih, hstop.mpr (Or.inl hih)⟩
  · have hic : (analyzePainClinical lm b).intensity_level = .Critical := hcrit.mpr h9
    exact ⟨Or.inr hic, hstop.mpr (Or.inr hic)⟩

/-! ### C4 — visibility sentinel -/

lemma lmGet_replicate (n i : ℕ) (a : LandmarkR) (h : i < n) :
    lmGet (List.replicate n a) i = a := by
  unfold lmGet
  rw [List.getD_eq_getElem?_getD, List.getElem?_replicate, if_pos h, Option.getD_some]

/-- A full 33-landmark frame whose landmarks are all at the origin with
visibility 0. -/
def zeroVisFrame : List LandmarkR := List.replicate 33 ⟨0, 0, 0, some 0⟩

/-- A full 33-landmark frame whose landmarks are all at the origin with
visibility 1. -/
def fullVisFrame : List LandmarkR := List.replicate 33 ⟨0, 0, 0, some 1⟩

lemma calculateAngle3D_of_magmul_zero {A B C : LandmarkR}
    (hz : magnitude (subtract A B) * magnitude (subtract C B) = 0) :
    calculateAngle3D A B C = 0 := by
  simp only [calculateAngle3D]
  rw [if_pos hz]

/-- C4 counterexample: on a frame whose elbow landmarks all have
visibility 0 (minimum visibility 0 < 0.5), `getElbowAngle` still returns
the numeric angle 0 rather than the `-1` sentinel — the elbow angle has
no visibility sentinel in the code. -/
theorem getElbowAngle_no_visibility_sentinel :
    getElbowAngle zeroVisFrame .left = 0 ∧
    getElbowAngle zeroVisFrame .left ≠ -1 ∧
    min (min (lmGet zeroVisFrame 11).vis (lmGet zeroVisFrame 13).vis)
      (lmGet zeroVisFrame 15).vis < 0.5 := by
  have hl : ∀ i, i < 33 → lmGet zeroVisFrame i = ⟨0, 0, 0, some 0⟩ :=
    fun i h => lmGet_replicate 33 i _ h
  have hangle : getElbowAngle zeroVisFrame .left = 0 := by
    unfold getElbowAngle
    simp only [reduceIte]
    rw [hl 11 (by norm_num), hl 13 (by norm_num), hl 15 (by norm_num)]
    exact calculateAngle3D_of_magmul_zero (by rw [magnitude_subtract_self, zero_mul])
  refine ⟨hangle, by rw [hangle]; norm_num, ?_⟩
  rw [hl 11 (by norm_num), hl 13 (by norm_num), hl 15 (by norm_num)]
  norm_num [LandmarkR.vis]

/-- C4 (amended): only the knee angle carries the visibility sentinel —
`getKneeAngle` returns `-1` exactly when the minimum visibility of
hip/knee/ankle is below 0.5 and the plain hip–knee–ankle vertex angle
otherwise; `getElbowAngle`, `getShoulderAngle` and `getHipAngle` return
the bare vertex angle with no visibility gating. -/
theorem visibility_sentinel_spec :
    (∀ (lm : List LandmarkR) (side : Side),
      min (min (lmGet lm (if side = .left then 23 else 24)).vis
          (lmGet lm (if side = .left then 25 else 26)).vis)
        (lmGet lm (if side = .left then 27 else 28)).vis < 0.5 →
      getKneeAngle lm side = -1) ∧
    (∀ (lm : List LandmarkR) (side : Side),
      ¬ (min (min (lmGet lm (if side = .left then 23 else 24)).vis
          (lmGet lm (if side = .left then 25 else 26)).vis)
        (lmGet lm (if side = .left then 27 else 28)).vis < 0.5) →
      getKneeAngle lm side =
        calculateAngle3D (lmGet lm (if side = .left then 23 else 24))
          (lmGet lm (if side = .left then 25 else 26))
          (lmGet lm (if side = .left then 27 else 28))) ∧
    (∀ (lm : List LandmarkR) (side : Side),
      getElbowAngle lm side =
        calculateAngle3D (lmGet lm (if side = .left then 11 else 12))
          (lmGet lm (if side = .left then 13 else 14))
          (lmGet lm (if side = .left then 15 else 16))) ∧
    (∀ (lm : List LandmarkR) (side : Side),
      getShoulderAngle lm side =
        calculateAngle3D (lmGet lm (if side = .left then 23 else 24))
          (lmGet lm (if side = .left then 11 else 12))
          (lmGet lm (if side = .left then 13 else 14))) ∧
    (∀ (lm : List LandmarkR) (side : Side),
      getHipAngle lm side =
        calculateAngle3D (lmGet lm (if side = .left then 11 else 12))
          (lmGet lm (if side = .left then 23 else 24))
          (lmGet lm (if side = .left then 25 else 26))) := by
  refine ⟨fun lm side h => ?_, fun lm side h => ?_, fun lm side => rfl,
    fun lm side => rfl, fun lm side => rfl⟩
  · simp only [getKneeAngle]
    rw [if_pos h]
  · simp only [getKneeAngle]
    rw [if_neg h]

/-- C4 witness: the knee sentinel fires on the zero-visibility frame and
does not fire on the full-visibility frame. -/
theorem visibility_sentinel_spec_witness :
    getKneeAngle zeroVisFrame .left = -1 ∧
    getKneeAngle fullVisFrame .left =
      calculateAngle3D (lmGet fullVisFrame 23) (lmGet fullVisFrame 25)
        (lmGet fullVisFrame 27) := by
  have h1 := visibility_sentinel_spec.1 zeroVisFrame .left (by
    simp only [reduceIte, zeroVisFrame]
    rw [lmGet_replicate 33 23 _ (by norm_num), lmGet_replicate 33 25 _ (by norm_num),
      lmGet_replicate 33 27 _ (by norm_num)]
    norm_num [LandmarkR.vis])
  have h2 := visibility_sentinel_spec.2.1 fullVisFrame .left (by
    simp only [reduceIte, fullVisFrame]
    rw [lmGet_replicate 33 23 _ (by norm_num), lmGet_replicate 33 25 _ (by norm_num),
      lmGet_replicate 33 27 _ (by norm_num)]
    norm_num [LandmarkR.vis])
  simp only [reduceIte] at h1 h2
  exact ⟨h1, h2⟩

/-! ### C10 witness — a concrete frame on which pain is detected -/

lemma calculateDistance3D_xaxis (x1 x2 : ℝ) (v1 v2 : Option ℝ) :
    calculateDistance3D ⟨x1, 0, 0, v1⟩ ⟨x2, 0, 0, v2⟩ = |x1 - x2| := by
  unfold calculateDistance3D magnitude subtract
  simp only
  rw [show (x1 - x2) * (x1 - x2) + (0 - 0 : ℝ) * (0 - 0) + (0 - 0 : ℝ) * (0 - 0)
    = (x1 - x2) * (x1 - x2) by ring]
  exact Real.sqrt_mul_self_eq_abs _

/-- A grimacing face along the x axis: inter-eye distance 1, eye-inner
and eye-outer corners compressed onto the nose, and a wide, raised
mouth — all four action units trigger at full intensity, so the raw
score saturates at 10. -/
noncomputable def painFrame : List LandmarkR :=
  [⟨1/2, 0, 0, none⟩,      -- 0 nose
   ⟨1/2, 0, 0, none⟩,      -- 1 left eye inner
   ⟨0, 0, 0, none⟩,        -- 2 left eye
   ⟨1/2, 0, 0, none⟩,      -- 3 left eye outer
   ⟨1/2, 0, 0, none⟩,      -- 4 right eye inner
   ⟨1, 0, 0, none⟩,        -- 5 right eye
   ⟨1/2, 0, 0, none⟩,      -- 6 right eye outer
   ⟨0, 0, 0, none⟩,        -- 7 left ear
   ⟨0, 0, 0, none⟩,        -- 8 right ear
   ⟨-(3/20), 0, 0, none⟩,  -- 9 mouth left
   ⟨23/20, 0, 0, none⟩]    -- 10 mouth right

lemma analyzePain_painFrame_detected :
    (analyzePainClinical painFrame none).pain_detected = true := by
  have hred : analyzePainClinical painFrame none =
      analyzePainCore ⟨1/2, 0, 0, none⟩ ⟨1/2, 0, 0, none⟩ ⟨0, 0, 0, none⟩
        ⟨1/2, 0, 0, none⟩ ⟨1/2, 0, 0, none⟩ ⟨1, 0, 0, none⟩ ⟨1/2, 0, 0, none⟩
        ⟨-(3/20), 0, 0, none⟩ ⟨23/20, 0, 0, none⟩ none := rfl
  rw [hred]
  unfold analyzePainCore
  simp only [calculateDistance3D_xaxis]
  have ha1 : |(-(3/20) : ℝ) - 1/2| = 13/20 := by
    rw [abs_of_nonpos (by norm_num)]; norm_num
  have ha2 : |(23/20 : ℝ) - 1/2| = 13/20 := by
    rw [abs_of_nonneg (by norm_num)]; norm_num
  have ha3 : |(-(3/20) : ℝ) - 23/20| = 13/10 := by
    rw [abs_of_nonpos (by norm_num)]; norm_num
  have ha4 : |(0 : ℝ) - 1| = 1 := by
    rw [abs_of_nonpos (by norm_num)]; norm_num
  simp only [ha1, ha2, ha3, ha4]
  norm_num [min_def, painAssemble, decide_eq_true_eq]

/-- C10 witness: the invariant applied at the concrete grimacing frame
(pain detected there). -/
theorem painDetected_implies_stop_witness :
    ((analyzePainClinical painFrame none).intensity_level = .High ∨
      (analyzePainClinical painFrame none).intensity_level = .Critical) ∧
    (analyzePainClinical painFrame none).recommended_action = .StopExercise :=
  painDetected_implies_stop painFrame none analyzePain_painFrame_detected

/-! ### C9 — DTW -/

lemma zip_self_map_sum_zero (f : List LandmarkR) :
    ((f.zip f).map (fun p =>
      Real.sqrt ((p.1.x - p.2.x) * (p.1.x - p.2.x) +
        (p.1.y - p.2.y) * (p.1.y - p.2.y) +
        (p.1.z - p.2.z) * (p.1.z - p.2.z)))).sum = 0 := by
  induction f with
  | nil => simp
  | cons a t ih => simp [List.zip_cons_cons, ih]

lemma poseDistance_self (f : List LandmarkR) :
    poseDistance f f = ((0 : ℝ) : WithTop ℝ) := by
  unfold poseDistance
  rw [if_neg (by simp)]
  simp [zip_self_map_sum_zero]

lemma poseDistance_nonneg (f1 f2 : List LandmarkR) : 0 ≤ poseDistance f1 f2 := by
  unfold poseDistance
  split
  · exact le_top
  · have hs : (0 : ℝ) ≤ ((f1.zip f2).map (fun p =>
        Real.sqrt ((p.1.x - p.2.x) * (p.1.x - p.2.x) +
          (p.1.y - p.2.y) * (p.1.y - p.2.y) +
          (p.1.z - p.2.z) * (p.1.z - p.2.z)))).sum :=
      List.sum_nonneg (by
        intro x hx
        obtain ⟨p, _, rfl⟩ := List.mem_map.mp hx
        exact Real.sqrt_nonneg _)
    dsimp only
    exact_mod_cast div_nonneg hs (Nat.cast_nonneg _)

lemma dtwVal_nonneg_aux (u g : List (List LandmarkR)) :
    ∀ n i j, i + j ≤ n → 0 ≤ dtwVal u g i j := by
  intro n
  induction n with
  | zero =>
    intro i j h
    have hi : i = 0 := by omega
    have hj : j = 0 := by omega
    subst hi; subst hj
    simp [dtwVal]
  | succ n ih =>
    intro i j h
    match i, j with
    | 0, 0 => simp [dtwVal]
    | 0, j + 1 => rw [dtwVal]; exact le_top
    | i + 1, 0 => rw [dtwVal]; exact le_top
    | i + 1, j + 1 =>
      rw [dtwVal]
      exact add_nonneg (poseDistance_nonneg _ _)
        (le_min (ih i (j + 1) (by omega))
          (le_min (ih (i + 1) j (by omega)) (ih i j (by omega))))

lemma dtwVal_nonneg (u g : List (List LandmarkR)) (i j : ℕ) :
    0 ≤ dtwVal u g i j :=
  dtwVal_nonneg_aux u g (i + j) i j le_rfl

lemma dtwVal_self_diag (u : List (List LandmarkR)) :
    ∀ i, dtwVal u u i i = 0 := by
  intro i
  induction i with
  | zero => simp [dtwVal]
  | succ i ih =>
    rw [dtwVal, poseDistance_self]
    have hmin : min (dtwVal u u i (i + 1))
        (min (dtwVal u u (i + 1) i) (dtwVal u u i i)) = 0 := by
      apply le_antisymm
      · exact le_trans (min_le_right _ _) (le_trans (min_le_right _ _) (le_of_eq ih))
      · exact le_min (dtwVal_nonneg u u i (i + 1))
          (le_min (dtwVal_nonneg u u (i + 1) i) (by rw [ih]))
    rw [hmin]
    simp

/-- C9: self-comparison of a nonempty sequence of 33-landmark frames
yields distance 0 and quality score 100; comparison with an empty
sequence yields infinite distance and quality 0; and the returned
quality score always equals the clamped `round(100 * exp(-5 * nd))` of
the returned normalized distance (`dtwQuality`). -/
theorem computeDTW_spec :
    (∀ u : List (List LandmarkR), u ≠ [] → (∀ f ∈ u, f.length = 33) →
      (computeDTW u u).distance = 0 ∧ (computeDTW u u).qualityScore = 100) ∧
    (∀ u g : List (List LandmarkR), u = [] ∨ g = [] →
      (computeDTW u g).distance = ⊤ ∧ (computeDTW u g).qualityScore = 0) ∧
    (∀ u g : List (List LandmarkR),
      (computeDTW u g).qualityScore = dtwQuality (computeDTW u g).normalizedDistance) := by
  refine ⟨fun u hu _hlen => ?_, fun u g h => ?_, fun u g => ?_⟩
  · unfold computeDTW
    rw [if_neg (by simp [hu])]
    refine ⟨dtwVal_self_diag u u.length, ?_⟩
    dsimp only
    rw [dtwVal_self_diag u u.length]
    show dtwQuality (WithTop.map _ ((0 : ℝ) : WithTop ℝ)) = 100
    rw [WithTop.map_coe]
    unfold dtwQuality
    rw [zero_div]
    norm_num [jsRoundR, Real.exp_zero]
  · unfold computeDTW
    rw [if_pos (by rcases h with h | h <;> simp [h])]
    exact ⟨rfl, rfl⟩
  · unfold computeDTW
    dsimp only
    split
    · simp [dtwQuality]
    · rfl

/-- C9 witness: self-comparison of a one-frame 33-landmark sequence, and
the empty comparison. -/
theorem computeDTW_spec_witness :
    (computeDTW [List.replicate 33 ⟨0, 0, 0, none⟩]
      [List.replicate 33 ⟨0, 0, 0, none⟩]).distance = 0 ∧
    (computeDTW [] ([] : List (List LandmarkR))).qualityScore = 0 := by
  constructor
  · exact (computeDTW_spec.1 [List.replicate 33 ⟨0, 0, 0, none⟩] (by simp)
      (by intro f hf; rw [List.mem_singleton] at hf; subst hf; simp)).1
  · exact (computeDTW_spec.2.1 [] [] (Or.inl rfl)).2

/-! ### Engine claims — shared concrete inputs and preservation lemmas -/

/-- The documented default baseline, used as a concrete stand-in for the
real-valued baseline averaging in engine runs. -/
def defaultBaselineQ : CalibrationBaselineQ :=
  { eyeDist := 1/10, eyeNose := 6/10, eyeNarrow := 1/4,
    mouthNose := 9/10, mouthWidth := 9/10 }

def constBaselineM : List (List LandmarkQ) → CalibrationBaselineQ :=
  fun _ => defaultBaselineQ

/-- 33 origin landmarks (a well-formed input frame). -/
def dummyLandmarks : List LandmarkQ := List.replicate 33 ⟨0, 0, 0, none⟩

/-- Oracle frame: a given primary angle, no pain, perfect form. -/
def plainFrame (a : ℚ) : FrameInput :=
  { landmarks := dummyLandmarks
    primaryAngle := a
    painAnalysis := initialPainAnalysis
    overallSymmetry := 100
    jointStress := []
    formScore := 100
    now := 0 }

/-- Oracle frame: raw pain score 9 (High intensity, consistent with the
pain estimator's bands), no usable primary angle. -/
def painFrame9 : FrameInput :=
  { landmarks := dummyLandmarks
    primaryAngle := -1
    painAnalysis :=
      { pain_detected := true
        confidence_score := 17/20
        primary_action_units := []
        intensity_level := .High
        recommended_action := .StopExercise
        pain_score_raw := 9 }
    overallSymmetry := 100
    jointStress := []
    formScore := 100
    now := 0 }

lemma updatePhase_repCount (e : Engine) (p : Phase) :
    (updatePhase e p).st.repCount = e.st.repCount ∧
    (updatePhase e p).lastRepTimestamp = e.lastRepTimestamp := by
  unfold updatePhase
  dsimp only
  split_ifs <;> exact ⟨rfl, rfl⟩

lemma handleClinical_phase_rep (e : Engine) (a : PainAnalysisQ) (ts : ℚ) :
    (handleClinicalPainThresholds e a ts).st.phase = e.st.phase ∧
    (handleClinicalPainThresholds e a ts).st.repCount = e.st.repCount ∧
    (handleClinicalPainThresholds e a ts).lastRepTimestamp = e.lastRepTimestamp ∧
    (handleClinicalPainThresholds e a ts).exerciseId = e.exerciseId := by
  unfold handleClinicalPainThresholds
  dsimp only
  repeat' split
  all_goals exact ⟨rfl, rfl, rfl, rfl⟩

lemma updatePhase_pres (e : Engine) (p : Phase) :
    (updatePhase e p).acutePainStartTime = e.acutePainStartTime ∧
    (updatePhase e p).stopNotifications = e.stopNotifications ∧
    (updatePhase e p).st.safetyLog = e.st.safetyLog ∧
    (updatePhase e p).st.painAnalysis = e.st.painAnalysis := by
  unfold updatePhase
  dsimp only
  split_ifs <;> exact ⟨rfl, rfl, rfl, rfl⟩

lemma detectPlank_pres (e : Engine) (a now : ℚ) :
    (detectPlank e a now).acutePainStartTime = e.acutePainStartTime ∧
    (detectPlank e a now).stopNotifications = e.stopNotifications ∧
    (detectPlank e a now).st.safetyLog = e.st.safetyLog ∧
    (detectPlank e a now).st.painAnalysis = e.st.painAnalysis := by
  unfold detectPlank
  dsimp only
  split_ifs <;> exact ⟨rfl, rfl, rfl, rfl⟩

set_option maxHeartbeats 1600000 in
lemma detect_preserves_safety (e : Engine) (a ts now : ℚ) :
    (detectPhaseTransition e a ts now).acutePainStartTime = e.acutePainStartTime ∧
    (detectPhaseTransition e a ts now).stopNotifications = e.stopNotifications ∧
    (detectPhaseTransition e a ts now).st.safetyLog = e.st.safetyLog ∧
    (detectPhaseTransition e a ts now).st.painAnalysis = e.st.painAnalysis := by
  unfold detectPhaseTransition
  dsimp only
  split
  · exact ⟨rfl, rfl, rfl, rfl⟩
  · split_ifs <;>
      first
        | exact ⟨rfl, rfl, rfl, rfl⟩
        | exact updatePhase_pres _ _
        | exact detectPlank_pres _ _ _

lemma biometricsUpdate_fields (e : Engine) (fr : FrameInput) (ts : ℚ) :
    (biometricsUpdate e fr ts).exerciseId = e.exerciseId ∧
    (biometricsUpdate e fr ts).exercise = e.exercise ∧
    (biometricsUpdate e fr ts).st.phase = e.st.phase ∧
    (biometricsUpdate e fr ts).st.repCount = e.st.repCount ∧
    (biometricsUpdate e fr ts).lastRepTimestamp = e.lastRepTimestamp ∧
    (biometricsUpdate e fr ts).acutePainStartTime = e.acutePainStartTime ∧
    (biometricsUpdate e fr ts).stopNotifications = e.stopNotifications ∧
    (biometricsUpdate e fr ts).st.safetyLog.system_command = none ∧
    (biometricsUpdate e fr ts).st.currentAngle = smoothedAngle e fr.primaryAngle ts :=
  ⟨rfl, rfl, rfl, rfl, rfl, rfl, rfl, rfl, rfl⟩

/-! ### C2 — malformed input and calibration -/

/-- C2 counterexample: the very first calibration frame already mutates
the externally visible state — the safety log switches to
`"Calibrating"` with a new message — so a calibration tick is not a
no-op on every field. -/
theorem processFrame_calibration_mutates_state :
    (Engine.init "squat" (some ⟨90, 160⟩) 0).st.isCalibrating = true ∧
    (Engine.init "squat" (some ⟨90, 160⟩) 0).st.safetyLog.status = "Scanning" ∧
    (processFrame constBaselineM (Engine.init "squat" (some ⟨90, 160⟩) 0)
      (plainFrame 80) 1).st.safetyLog.status = "Calibrating" ∧
    (processFrame constBaselineM (Engine.init "squat" (some ⟨90, 160⟩) 0)
        (plainFrame 80) 1).st ≠
      (Engine.init "squat" (some ⟨90, 160⟩) 0).st :=
  of_decide_eq_true (by with_unfolding_all rfl)

/-- C2 (amended): a frame with fewer than 33 landmarks is a strict no-op
(the whole engine is returned unchanged); during calibration the fields
that drive exercise tracking (phase, rep count, angle, scores, stress
list, velocity, pain analysis, pain level, system command, timestamps)
are unchanged — only the calibration progress/flag and the safety-log
status and message may move. -/
theorem processFrame_malformed_and_calibration_spec :
    ∀ (cbm : List (List LandmarkQ) → CalibrationBaselineQ) (e : Engine)
      (fr : FrameInput) (ts : ℚ),
      (fr.landmarks.length < 33 → processFrame cbm e fr ts = e) ∧
      (e.st.isCalibrating = true →
        (processFrame cbm e fr ts).st.phase = e.st.phase ∧
        (processFrame cbm e fr ts).st.repCount = e.st.repCount ∧
        (processFrame cbm e fr ts).st.currentAngle = e.st.currentAngle ∧
        (processFrame cbm e fr ts).st.formScore = e.st.formScore ∧
        (processFrame cbm e fr ts).st.jointStress = e.st.jointStress ∧
        (processFrame cbm e fr ts).st.startTime = e.st.startTime ∧
        (processFrame cbm e fr ts).st.lastRepTime = e.st.lastRepTime ∧
        (processFrame cbm e fr ts).st.angularVelocity = e.st.angularVelocity ∧
        (processFrame cbm e fr ts).st.symmetryScore = e.st.symmetryScore ∧
        (processFrame cbm e fr ts).st.isHolding = e.st.isHolding ∧
        (processFrame cbm e fr ts).st.painScore = e.st.painScore ∧
        (processFrame cbm e fr ts).st.painAnalysis = e.st.painAnalysis ∧
        (processFrame cbm e fr ts).st.safetyLog.pain_level = e.st.safetyLog.pain_level ∧
        (processFrame cbm e fr ts).st.safetyLog.system_command
          = e.st.safetyLog.system_command ∧
        (processFrame cbm e fr ts).previousTimestamp = e.previousTimestamp) := by
  intro cbm e fr ts
  constructor
  · intro h
    unfold processFrame
    rw [if_pos (Or.inr h)]
  · intro hcal
    unfold processFrame
    by_cases hg : e.exercise = none ∨ fr.landmarks.length < 33
    · rw [if_pos hg]
      exact ⟨rfl, rfl, rfl, rfl, rfl, rfl, rfl, rfl, rfl, rfl, rfl, rfl, rfl, rfl, rfl⟩
    · rw [if_neg hg]
      dsimp only
      rw [if_pos hcal]
      unfold handleCalibration
      dsimp only
      split
      · exact ⟨rfl, rfl, rfl, rfl, rfl, rfl, rfl, rfl, rfl, rfl, rfl, rfl, rfl, rfl, rfl⟩
      · exact ⟨rfl, rfl, rfl, rfl, rfl, rfl, rfl, rfl, rfl, rfl, rfl, rfl, rfl, rfl, rfl⟩

/-- C2 witness: the strict no-op on an empty landmark list, and the
rep-count preservation on a first calibration frame. -/
theorem processFrame_malformed_and_calibration_spec_witness :
    processFrame constBaselineM (Engine.init "squat" (some ⟨90, 160⟩) 0)
      { plainFrame 80 with landmarks := [] } 1 =
      Engine.init "squat" (some ⟨90, 160⟩) 0 ∧
    (processFrame constBaselineM (Engine.init "squat" (some ⟨90, 160⟩) 0)
        (plainFrame 80) 1).st.repCount =
      (Engine.init "squat" (some ⟨90, 160⟩) 0).st.repCount :=
  ⟨(processFrame_malformed_and_calibration_spec constBaselineM _ _ 1).1
      (by decide),
    ((processFrame_malformed_and_calibration_spec constBaselineM _ _ 1).2
      rfl).2.1⟩

/-! ### C5 — reset -/

/-- C5 counterexample: after two squat frames attempting the DOWN phase,
`reset()` leaves the phase-debounce memory (`lastAttemptedPhase`,
`phaseFrameCount`) holding the pre-reset candidate phase instead of the
constructor values `IDLE` / 0 — the debounce memory is not cleared. -/
theorem reset_keeps_phase_debounce_memory :
    (([((1 : ℚ), (80 : ℚ)), (3001, 80), (3031, 80), (3061, 80)].foldl
        (fun e p => processFrame constBaselineM e (plainFrame p.2) p.1)
        (Engine.init "squat" (some ⟨90, 160⟩) 0)).reset 9999).phaseFrameCount = 2 ∧
    (([((1 : ℚ), (80 : ℚ)), (3001, 80), (3031, 80), (3061, 80)].foldl
        (fun e p => processFrame constBaselineM e (plainFrame p.2) p.1)
        (Engine.init "squat" (some ⟨90, 160⟩) 0)).reset 9999).lastAttemptedPhase =
      Phase.DOWN ∧
    (Engine.init "squat" (some ⟨90, 160⟩) 9999).phaseFrameCount = 0 ∧
    (Engine.init "squat" (some ⟨90, 160⟩) 9999).lastAttemptedPhase = Phase.IDLE :=
  of_decide_eq_true (by with_unfolding_all rfl)

/-- C5 (amended): `reset()` restores every `ExerciseState` field to its
constructor value (with a fresh start time) and clears the listed
smoothing / calibration / cooldown / hold / pain-timer / previous-frame
memory, but it does not touch `lastAttemptedPhase`, `phaseFrameCount` or
`lastValidAngleTimestamp`. -/
theorem reset_spec :
    ∀ (e : Engine) (now : ℚ),
      (e.reset now).st = initialState e.exerciseId now ∧
      (e.reset now).exerciseId = e.exerciseId ∧
      (e.reset now).exercise = e.exercise ∧
      (e.reset now).previousLandmarks = none ∧
      (e.reset now).previousTimestamp = 0 ∧
      (e.reset now).angleHistory = [] ∧
      (e.reset now).cumulativeHoldDuration = 0 ∧
      (e.reset now).lastHoldTick = 0 ∧
      (e.reset now).acutePainStartTime = none ∧
      (e.reset now).calibrationFrames = [] ∧
      (e.reset now).calibrationStartTime = none ∧
      (e.reset now).baseline = none ∧
      (e.reset now).smaAngleHistory = [] ∧
      (e.reset now).painEMA = 0 ∧
      (e.reset now).lastRepTimestamp = 0 ∧
      (e.reset now).lastAttemptedPhase = e.lastAttemptedPhase ∧
      (e.reset now).phaseFrameCount = e.phaseFrameCount ∧
      (e.reset now).lastValidAngleTimestamp = e.lastValidAngleTimestamp :=
  fun e now =>
    ⟨rfl, rfl, rfl, rfl, rfl, rfl, rfl, rfl, rfl, rfl, rfl, rfl, rfl, rfl, rfl, rfl,
      rfl, rfl⟩

/-! ### C3 — rep cooldown -/

set_option maxHeartbeats 1600000 in
lemma detect_armed_rep (e : Engine) (a ts now : ℚ)
    (hid : ¬(e.exerciseId = "squat" ∨ e.exerciseId = "lunge" ∨ e.exerciseId = "plank")) :
    (detectPhaseTransition e a ts now).st.repCount ≠ e.st.repCount →
    (detectPhaseTransition e a ts now).lastRepTimestamp = ts := by
  unfold detectPhaseTransition
  dsimp only
  split
  · intro hrep; exact absurd rfl hrep
  · split_ifs <;> intro hrep <;>
      first
        | exact absurd rfl hrep
        | exact (updatePhase_repCount _ _).2
        | exact absurd (updatePhase_repCount _ _).1 hrep
        | tauto

/-- C3 counterexample run: a squat session (thresholds 100/120) at a
30 ms frame interval.  Two calibration frames, four DOWN frames (80°),
three UP frames (170°) counting rep 1 at t = 3211, six DOWN frames and
three UP frames counting rep 2 at t = 3481 — 270 ms after rep 1, inside
the 850 ms cooldown window, because the squat branch never arms
`lastRepTimestamp`. -/
def squatRunFrames : List (ℚ × ℚ) :=
  [(1, 80), (3001, 80),
   (3031, 80), (3061, 80), (3091, 80), (3121, 80),
   (3151, 170), (3181, 170), (3211, 170),
   (3241, 80), (3271, 80), (3301, 80), (3331, 80), (3361, 80), (3391, 80),
   (3421, 170), (3451, 170), (3481, 170)]

def squatRun (n : ℕ) : Engine :=
  (squatRunFrames.take n).foldl
    (fun e p => processFrame constBaselineM e (plainFrame p.2) p.1)
    (Engine.init "squat" (some ⟨100, 120⟩) 0)

set_option maxRecDepth 8000 in
lemma squatRun_rep_before_first : (squatRun 8).st.repCount = 0 :=
  of_decide_eq_true (by with_unfolding_all rfl)

set_option maxRecDepth 8000 in
lemma squatRun_rep_first : (squatRun 9).st.repCount = 1 :=
  of_decide_eq_true (by with_unfolding_all rfl)

set_option maxRecDepth 8000 in
lemma squatRun_rep_before_second : (squatRun 17).st.repCount = 1 :=
  of_decide_eq_true (by with_unfolding_all rfl)

set_option maxRecDepth 8000 in
lemma squatRun_rep_second : (squatRun 18).st.repCount = 2 :=
  of_decide_eq_true (by with_unfolding_all rfl)

set_option maxRecDepth 8000 in
lemma squatRun_cooldown_unarmed : (squatRun 18).lastRepTimestamp = 0 :=
  of_decide_eq_true (by with_unfolding_all rfl)

/-- C3 counterexample: in the squat run, rep 1 is counted on the frame
at t = 3211 and rep 2 on the frame at t = 3481, only 270 ms later —
inside the 850 ms cooldown window — and `lastRepTimestamp` is still 0:
squat reps never arm the cooldown, so phase detection is not suppressed
after a squat rep. -/
theorem squat_counts_second_rep_within_cooldown :
    (squatRun 8).st.repCount = 0 ∧
    (squatRun 9).st.repCount = 1 ∧
    (squatRunFrames.getD 8 (0, 0)).1 = 3211 ∧
    (squatRun 17).st.repCount = 1 ∧
    (squatRun 18).st.repCount = 2 ∧
    (squatRunFrames.getD 17 (0, 0)).1 = 3481 ∧
    ((3481 : ℚ) - 3211 < REP_COOLDOWN_MS) ∧
    (squatRun 18).lastRepTimestamp = 0 :=
  ⟨squatRun_rep_before_first, squatRun_rep_first, rfl, squatRun_rep_before_second,
    squatRun_rep_second, rfl, of_decide_eq_true (by with_unfolding_all rfl),
    squatRun_cooldown_unarmed⟩

/-- C3 (amended): for the exercise kinds other than squat, lunge and
plank, counting a rep arms the cooldown (`lastRepTimestamp` becomes the
frame timestamp); and for every exercise, while
`timestamp - lastRepTimestamp < 850` phase detection is suppressed —
the rep count, the committed phase and the cooldown origin are all
unchanged by the frame. -/
theorem rep_cooldown_spec :
    ∀ (cbm : List (List LandmarkQ) → CalibrationBaselineQ) (e : Engine)
      (fr : FrameInput) (ts : ℚ),
      (¬(e.exerciseId = "squat" ∨ e.exerciseId = "lunge" ∨ e.exerciseId = "plank") →
        (processFrame cbm e fr ts).st.repCount ≠ e.st.repCount →
        (processFrame cbm e fr ts).lastRepTimestamp = ts) ∧
      (ts - e.lastRepTimestamp < REP_COOLDOWN_MS →
        (processFrame cbm e fr ts).st.repCount = e.st.repCount ∧
        (processFrame cbm e fr ts).st.phase = e.st.phase ∧
        (processFrame cbm e fr ts).lastRepTimestamp = e.lastRepTimestamp) := by
  intro cbm e fr ts
  constructor
  · intro hid
    by_cases hg : e.exercise = none ∨ fr.landmarks.length < 33
    · have heq : processFrame cbm e fr ts = e := by
        unfold processFrame; rw [if_pos hg]
      rw [heq]
      intro hrep; exact absurd rfl hrep
    · by_cases hcal : e.st.isCalibrating = true
      · have heq : processFrame cbm e fr ts = handleCalibration cbm e fr.landmarks ts := by
          unfold processFrame; rw [if_neg hg]; dsimp only; rw [if_pos hcal]
        have hrc : (handleCalibration cbm e fr.landmarks ts).st.repCount = e.st.repCount := by
          unfold handleCalibration; dsimp only; split <;> rfl
        rw [heq]
        intro hrep; exact absurd hrc hrep
      · unfold processFrame
        rw [if_neg hg, if_neg hcal]
        dsimp only
        split
        · intro hrep
          refine detect_armed_rep _ _ _ _ ?_ ?_
          · rw [(handleClinical_phase_rep _ _ _).2.2.2,
              (biometricsUpdate_fields _ _ _).1]
            exact hid
          · rw [(handleClinical_phase_rep _ _ _).2.1,
              (biometricsUpdate_fields _ _ _).2.2.2.1]
            exact hrep
        · intro hrep
          exact absurd ((handleClinical_phase_rep _ _ _).2.1.trans
            (biometricsUpdate_fields _ _ _).2.2.2.1) hrep
  · intro hcd
    by_cases hg : e.exercise = none ∨ fr.landmarks.length < 33
    · have heq : processFrame cbm e fr ts = e := by
        unfold processFrame; rw [if_pos hg]
      rw [heq]
      exact ⟨rfl, rfl, rfl⟩
    · by_cases hcal : e.st.isCalibrating = true
      · have heq : processFrame cbm e fr ts = handleCalibration cbm e fr.landmarks ts := by
          unfold processFrame; rw [if_neg hg]; dsimp only; rw [if_pos hcal]
        rw [heq]
        unfold handleCalibration
        dsimp only
        split <;> exact ⟨rfl, rfl, rfl⟩
      · unfold processFrame
        rw [if_neg hg, if_neg hcal]
        dsimp only
        rw [if_neg (fun h => h.2.2.2 (by
          rw [(handleClinical_phase_rep _ _ _).2.2.1,
            (biometricsUpdate_fields _ _ _).2.2.2.2.1]
          exact hcd))]
        exact ⟨(handleClinical_phase_rep _ _ _).2.1.trans
            (biometricsUpdate_fields _ _ _).2.2.2.1,
          (handleClinical_phase_rep _ _ _).1.trans
            (biometricsUpdate_fields _ _ _).2.2.1,
          (handleClinical_phase_rep _ _ _).2.2.1.trans
            (biometricsUpdate_fields _ _ _).2.2.2.2.1⟩

/-- A calibrated push-up engine in committed DOWN phase with a full
high-angle smoothing window, about to count a rep. -/
def pushupMidEngine : Engine :=
  { Engine.init "pushup" (some ⟨90, 160⟩) 0 with
    st := { initialState "pushup" 0 with isCalibrating := false, phase := .DOWN }
    smaAngleHistory := [170, 170, 170, 170, 170, 170]
    lastAttemptedPhase := .DOWN
    phaseFrameCount := 4 }

/-- C3 witness: the push-up rep counted at t = 5000 arms the cooldown,
and a frame inside the cooldown window of a fresh engine leaves the rep
count unchanged. -/
theorem rep_cooldown_spec_witness :
    (processFrame constBaselineM pushupMidEngine (plainFrame 170) 5000).lastRepTimestamp
      = 5000 ∧
    (processFrame constBaselineM (Engine.init "pushup" (some ⟨90, 160⟩) 0)
        (plainFrame 80) 100).st.repCount =
      (Engine.init "pushup" (some ⟨90, 160⟩) 0).st.repCount :=
  ⟨(rep_cooldown_spec constBaselineM pushupMidEngine (plainFrame 170) 5000).1
      (by decide) (of_decide_eq_true (by with_unfolding_all rfl)),
    ((rep_cooldown_spec constBaselineM (Engine.init "pushup" (some ⟨90, 160⟩) 0)
        (plainFrame 80) 100).2
      (of_decide_eq_true (by with_unfolding_all rfl))).1⟩

/-! ### C1 — safety halt escalation -/

lemma handleClinical_cases (e : Engine) (analysis : PainAnalysisQ) (ts : ℚ)
    (hsc : e.st.safetyLog.system_command = none) :
    (analysis.pain_score_raw > 8.5 →
      ¬(isPeakOfContraction e.exercise e.exerciseId e.st.currentAngle = true ∧
          analysis.intensity_level ≠ .Critical) →
      e.acutePainStartTime = none →
      (handleClinicalPainThresholds e analysis ts).acutePainStartTime = some ts ∧
      (handleClinicalPainThresholds e analysis ts).st.safetyLog.system_command = none ∧
      (handleClinicalPainThresholds e analysis ts).stopNotifications
        = e.stopNotifications) ∧
    (analysis.pain_score_raw > 8.5 →
      ¬(isPeakOfContraction e.exercise e.exerciseId e.st.currentAngle = true ∧
          analysis.intensity_level ≠ .Critical) →
      ∀ t0, e.acutePainStartTime = some t0 → ts - t0 ≤ 2500 →
      (handleClinicalPainThresholds e analysis ts).acutePainStartTime = some t0 ∧
      (handleClinicalPainThresholds e analysis ts).st.safetyLog.system_command = none ∧
      (handleClinicalPainThresholds e analysis ts).stopNotifications
        = e.stopNotifications) ∧
    (analysis.pain_score_raw > 8.5 →
      ¬(isPeakOfContraction e.exercise e.exerciseId e.st.currentAngle = true ∧
          analysis.intensity_level ≠ .Critical) →
      ∀ t0, e.acutePainStartTime = some t0 → ts - t0 > 2500 →
      (handleClinicalPainThresholds e analysis ts).st.safetyLog.system_command
        = some "HALT_WORKOUT" ∧
      (handleClinicalPainThresholds e analysis ts).stopNotifications
        = e.stopNotifications + 1 ∧
      (handleClinicalPainThresholds e analysis ts).st.painAnalysis.recommended_action
        = .StopExercise ∧
      (handleClinicalPainThresholds e analysis ts).acutePainStartTime = some t0) ∧
    (analysis.pain_score_raw > 8.5 →
      isPeakOfContraction e.exercise e.exerciseId e.st.currentAngle = true ∧
        analysis.intensity_level ≠ .Critical →
      (handleClinicalPainThresholds e analysis ts).acutePainStartTime = none ∧
      (handleClinicalPainThresholds e analysis ts).st.safetyLog.system_command = none ∧
      (handleClinicalPainThresholds e analysis ts).stopNotifications
        = e.stopNotifications) ∧
    (¬(analysis.pain_score_raw > 8.5) →
      (handleClinicalPainThresholds e analysis ts).acutePainStartTime = none ∧
      (handleClinicalPainThresholds e analysis ts).st.safetyLog.system_command = none ∧
      (handleClinicalPainThresholds e analysis ts).stopNotifications
        = e.stopNotifications) := by
  unfold handleClinicalPainThresholds
  dsimp only
  refine ⟨fun h1 h2 h3 => ?_, fun h1 h2 t0 h3 h4 => ?_, fun h1 h2 t0 h3 h4 => ?_,
    fun h1 h2 => ?_, fun h1 => ?_⟩
  · rw [if_pos h1, if_neg h2, h3]
    exact ⟨rfl, hsc, rfl⟩
  · rw [if_pos h1, if_neg h2, h3]
    dsimp only
    rw [if_neg (by exact fun hlt => absurd h4 (not_le.mpr hlt))]
    exact ⟨rfl, hsc, rfl⟩
  · rw [if_pos h1, if_neg h2, h3]
    dsimp only
    rw [if_pos h4]
    exact ⟨rfl, rfl, rfl, rfl⟩
  · rw [if_pos h1, if_pos h2]
    exact ⟨rfl, hsc, rfl⟩
  · rw [if_neg h1]
    exact ⟨rfl, hsc, rfl⟩

/-- C1 (amended): the per-frame behaviour of the acute-pain escalation,
for any fully processing frame (exercise configured, 33 landmarks, not
calibrating).  With the raw pain score above 8.5 away from the
peak-exertion state: an unset timer is set to this frame's timestamp
with no halt; a running timer within 2500 ms is kept with no halt; a
running timer beyond 2500 ms emits the halt — `system_command` becomes
`HALT_WORKOUT`, the stop callbacks fire (once per such frame, so a halt
is emitted on every qualifying frame, not exactly once per episode) and
the recommended action becomes stop — while the timer stays running.
At the peak (effort path) or at a score at or below 8.5 the timer is
reset and no halt is emitted. -/
theorem safetyHalt_escalation_spec :
    ∀ (cbm : List (List LandmarkQ) → CalibrationBaselineQ) (e : Engine)
      (fr : FrameInput) (ts : ℚ),
      e.exercise.isSome = true → 33 ≤ fr.landmarks.length →
      e.st.isCalibrating = false →
      (fr.painAnalysis.pain_score_raw > 8.5 →
        ¬(isPeakOfContraction e.exercise e.exerciseId
            (smoothedAngle e fr.primaryAngle ts) = true ∧
          fr.painAnalysis.intensity_level ≠ .Critical) →
        e.acutePainStartTime = none →
        (processFrame cbm e fr ts).acutePainStartTime = some ts ∧
        (processFrame cbm e fr ts).st.safetyLog.system_command = none ∧
        (processFrame cbm e fr ts).stopNotifications = e.stopNotifications) ∧
      (fr.painAnalysis.pain_score_raw > 8.5 →
        ¬(isPeakOfContraction e.exercise e.exerciseId
            (smoothedAngle e fr.primaryAngle ts) = true ∧
          fr.painAnalysis.intensity_level ≠ .Critical) →
        ∀ t0, e.acutePainStartTime = some t0 → ts - t0 ≤ 2500 →
        (processFrame cbm e fr ts).acutePainStartTime = some t0 ∧
        (processFrame cbm e fr ts).st.safetyLog.system_command = none ∧
        (processFrame cbm e fr ts).stopNotifications = e.stopNotifications) ∧
      (fr.painAnalysis.pain_score_raw > 8.5 →
        ¬(isPeakOfContraction e.exercise e.exerciseId
            (smoothedAngle e fr.primaryAngle ts) = true ∧
          fr.painAnalysis.intensity_level ≠ .Critical) →
        ∀ t0, e.acutePainStartTime = some t0 → ts - t0 > 2500 →
        (processFrame cbm e fr ts).st.safetyLog.system_command
          = some "HALT_WORKOUT" ∧
        (processFrame cbm e fr ts).stopNotifications = e.stopNotifications + 1 ∧
        (processFrame cbm e fr ts).st.painAnalysis.recommended_action
          = .StopExercise ∧
        (processFrame cbm e fr ts).acutePainStartTime = some t0) ∧
      (fr.painAnalysis.pain_score_raw > 8.5 →
        isPeakOfContraction e.exercise e.exerciseId
            (smoothedAngle e fr.primaryAngle ts) = true ∧
          fr.painAnalysis.intensity_level ≠ .Critical →
        (processFrame cbm e fr ts).acutePainStartTime = none ∧
        (processFrame cbm e fr ts).st.safetyLog.system_command = none ∧
        (processFrame cbm e fr ts).stopNotifications = e.stopNotifications) ∧
      (¬(fr.painAnalysis.pain_score_raw > 8.5) →
        (processFrame cbm e fr ts).acutePainStartTime = none ∧
        (processFrame cbm e fr ts).st.safetyLog.system_command = none ∧
        (processFrame cbm e fr ts).stopNotifications = e.stopNotifications) := by
  intro cbm e fr ts hex hlen hcal
  have hg : ¬(e.exercise = none ∨ fr.landmarks.length < 33) := by
    push_neg
    exact ⟨Option.ne_none_iff_isSome.mpr hex, by omega⟩
  have hcal' : ¬(e.st.isCalibrating = true) := by simp [hcal]
  have hb := biometricsUpdate_fields e fr ts
  have hcases := handleClinical_cases (biometricsUpdate e fr ts) fr.painAnalysis ts
    hb.2.2.2.2.2.2.2.1
  rw [hb.1, hb.2.1, hb.2.2.2.2.2.1, hb.2.2.2.2.2.2.1, hb.2.2.2.2.2.2.2.2] at hcases
  unfold processFrame
  rw [if_neg hg, if_neg hcal']
  dsimp only
  refine ⟨fun h1 h2 h3 => ?_, fun h1 h2 t0 h3 h4 => ?_, fun h1 h2 t0 h3 h4 => ?_,
    fun h1 h2 => ?_, fun h1 => ?_⟩
  · split
    · rw [(detect_preserves_safety _ _ _ _).1, (detect_preserves_safety _ _ _ _).2.1,
        (detect_preserves_safety _ _ _ _).2.2.1]
      exact hcases.1 h1 h2 h3
    · exact hcases.1 h1 h2 h3
  · split
    · rw [(detect_preserves_safety _ _ _ _).1, (detect_preserves_safety _ _ _ _).2.1,
        (detect_preserves_safety _ _ _ _).2.2.1]
      exact hcases.2.1 h1 h2 t0 h3 h4
    · exact hcases.2.1 h1 h2 t0 h3 h4
  · split
    · rw [(detect_preserves_safety _ _ _ _).1, (detect_preserves_safety _ _ _ _).2.1,
        (detect_preserves_safety _ _ _ _).2.2.1, (detect_preserves_safety _ _ _ _).2.2.2]
      exact hcases.2.2.1 h1 h2 t0 h3 h4
    · exact hcases.2.2.1 h1 h2 t0 h3 h4
  · split
    · rw [(detect_preserves_safety _ _ _ _).1, (detect_preserves_safety _ _ _ _).2.1,
        (detect_preserves_safety _ _ _ _).2.2.1]
      exact hcases.2.2.2.1 h1 h2
    · exact hcases.2.2.2.1 h1 h2
  · split
    · rw [(detect_preserves_safety _ _ _ _).1, (detect_preserves_safety _ _ _ _).2.1,
        (detect_preserves_safety _ _ _ _).2.2.1]
      exact hcases.2.2.2.2 h1
    · exact hcases.2.2.2.2 h1

/-- A calibrated shoulder-press engine (no peak-exertion zone for this
exercise kind). -/
def shoulderBase : Engine :=
  { Engine.init "shoulder-press" (some ⟨90, 160⟩) 0 with
    st := { initialState "shoulder-press" 0 with isCalibrating := false } }

/-- The same engine with the acute-pain timer running since t = 3100. -/
def shoulderTimer : Engine := { shoulderBase with acutePainStartTime := some 3100 }

/-- A calibrated squat engine (peak exertion below 105°). -/
def squatPeakEngine : Engine :=
  { Engine.init "squat" (some ⟨90, 160⟩) 0 with
    st := { initialState "squat" 0 with isCalibrating := false } }

unseal Rat.add Rat.sub Rat.mul Rat.inv Rat.ofScientific in
set_option maxRecDepth 4000 in
/-- C1 witness: all five escalation cases at concrete engines and
frames — the timer is set at 3100, kept at 4000, fires the halt at 5700,
and is reset on the effort path and on a low pain score. -/
theorem safetyHalt_escalation_spec_witness :
    (processFrame constBaselineM shoulderBase painFrame9 3100).acutePainStartTime
      = some 3100 ∧
    (processFrame constBaselineM shoulderTimer painFrame9 4000).acutePainStartTime
      = some 3100 ∧
    (processFrame constBaselineM shoulderTimer painFrame9 5700).st.safetyLog.system_command
      = some "HALT_WORKOUT" ∧
    (processFrame constBaselineM squatPeakEngine
        { painFrame9 with primaryAngle := 80 } 3100).acutePainStartTime = none ∧
    (processFrame constBaselineM shoulderBase (plainFrame 80) 3100).acutePainStartTime
      = none :=
  ⟨((safetyHalt_escalation_spec constBaselineM shoulderBase painFrame9 3100 rfl
      (by decide) rfl).1 (by decide) (by decide) rfl).1,
    ((safetyHalt_escalation_spec constBaselineM shoulderTimer painFrame9 4000 rfl
      (by decide) rfl).2.1 (by decide) (by decide) 3100 rfl (by decide)).1,
    ((safetyHalt_escalation_spec constBaselineM shoulderTimer painFrame9 5700 rfl
      (by decide) rfl).2.2.1 (by decide) (by decide) 3100 rfl (by decide)).1,
    ((safetyHalt_escalation_spec constBaselineM squatPeakEngine
      { painFrame9 with primaryAngle := 80 } 3100 rfl
      (by decide) rfl).2.2.2.1 (by decide) (by decide)).1,
    ((safetyHalt_escalation_spec constBaselineM shoulderBase (plainFrame 80) 3100 rfl
      (by decide) rfl).2.2.2.2 (by decide)).1⟩

/-- C1 counterexample run: a shoulder-press session with raw pain 9
(High intensity, away from any peak-exertion zone) at t = 3100, 5700
and 5730. -/
def haltRunFrames : List (ℚ × FrameInput) :=
  [(1, plainFrame 80), (3001, plainFrame 80),
   (3100, painFrame9), (5700, painFrame9), (5730, painFrame9)]

def haltRun (n : ℕ) : Engine :=
  (haltRunFrames.take n).foldl
    (fun e p => processFrame constBaselineM e p.2 p.1)
    (Engine.init "shoulder-press" (some ⟨90, 160⟩) 0)

unseal Rat.add Rat.sub Rat.mul Rat.inv Rat.ofScientific in
set_option maxRecDepth 4000 in
/-- C1 counterexample: the pain score stays above 8.5 away from the peak
from t = 3100 on; once 2.5 s have elapsed, the halt is emitted on
**every** subsequent frame — the stop callbacks fire at t = 5700 and
again at t = 5730 (ghost counter 1, then 2), and `system_command` is
re-set each frame after being rebuilt as null — not "exactly once". -/
theorem halt_fires_on_every_frame_past_threshold :
    (haltRun 3).acutePainStartTime = some 3100 ∧
    (haltRun 3).stopNotifications = 0 ∧
    (haltRun 4).st.safetyLog.system_command = some "HALT_WORKOUT" ∧
    (haltRun 4).stopNotifications = 1 ∧
    (haltRun 5).st.safetyLog.system_command = some "HALT_WORKOUT" ∧
    (haltRun 5).stopNotifications = 2 :=
  ⟨by decide, by decide, by decide, by decide, by decide, by decide⟩

end Physio
